import Mathlib

/-!
Verification development for the TutorsAssistant repository
(backend/app/chains.py, backend/main.py, backend/app/rag_builder.py).

Python strings are modelled as lists of characters (`Str`), so that the
string operations the source uses (`split`, `strip`, membership tests,
slicing) become ordinary list functions whose behaviour is fully visible.
External collaborators (the Chroma vector store, the LLM client, the
filesystem) are modelled as explicit parameters or state records; the logic
of the repository's own functions is translated line by line.
-/

namespace TutorsAssistant

/-- Python strings modelled as lists of characters. -/
abbrev Str := List Char

/-- Characters of a Lean string literal, used to write the source's literals. -/
def chars (s : String) : Str := s.data

/-- Python whitespace test used by `str.strip` (ASCII whitespace suffices for
the strings this program manipulates). -/
def isWs (c : Char) : Bool := c = ' ' || c = '\t' || c = '\n' || c = '\r'

/-- Python `s.strip()`: drop whitespace from both ends. -/
def pyStrip (s : Str) : Str :=
  ((s.dropWhile isWs).reverse.dropWhile isWs).reverse

/-- Python `s.split(sep)` for the single-character separator `'-'` used at
chains.py line 68: split at every occurrence of the character, keeping empty
segments. -/
def pySplit (c : Char) : Str → List Str
  | [] => [[]]
  | x :: xs =>
    if x = c then [] :: pySplit c xs
    else
    match pySplit c xs with
    | [] => [[x]]
    | h :: t => (x :: h) :: t

/-- Keyword derivation of `retrieve_docs` (chains.py lines 67-70):
`item.split("-")[1].strip()` when `"-" in item`, else `item` verbatim. -/
def title_keyword (item : Str) : Str :=
  if item.contains '-' then pyStrip ((pySplit '-' item).getD 1 [])
  else item

/-- The keyword derivation as the specification words it: split on the first
`" - "` separator and take the entire remainder, or use the label verbatim if
no `" - "` separator is present.  Stated only to compare with
`title_keyword`. -/
def title_keyword_specVersion (item : Str) : Str :=
  match (List.range (item.length + 1)).find?
      (fun i => (chars " - ").isPrefixOf (item.drop i)) with
  | some i => item.drop (i + (chars " - ").length)
  | none => item

/- Basic facts about the string helpers. -/

theorem pySplit_ne_nil (c : Char) (s : Str) : pySplit c s ≠ [] := by
  cases s with
  | nil => simp [pySplit]
  | cons x xs =>
    simp only [pySplit]
    split
    · simp
    · split <;> simp

theorem pySplit_head (c : Char) (s : Str) :
    (pySplit c s).getD 0 [] = s.takeWhile (fun x => !(x = c)) := by
  induction s with
  | nil => simp [pySplit, List.takeWhile]
  | cons x xs ih =>
    by_cases hx : x = c
    · simp [pySplit, hx, List.takeWhile]
    · simp only [pySplit, if_neg hx]
      rcases h : pySplit c xs with _ | ⟨hd, tl⟩
      · exact absurd h (pySplit_ne_nil c xs)
      · simp only [h, List.getD_cons_zero] at ih
        simp [List.takeWhile, hx, ih]

theorem pySplit_append_sep (c : Char) (a b : Str) (ha : c ∉ a) :
    pySplit c (a ++ c :: b) = a :: pySplit c b := by
  induction a with
  | nil => simp [pySplit]
  | cons x xs ih =>
    have hx : x ≠ c := by
      intro h; exact ha (by simp [h])
    have hxs : c ∉ xs := fun h => ha (List.mem_cons_of_mem _ h)
    simp only [List.cons_append, pySplit, if_neg hx, List.append_eq, ih hxs]

theorem contains_of_append_sep (c : Char) (a b : Str) :
    (a ++ c :: b).contains c = true := by
  simp [List.contains_eq_any_beq]

/-- Subset fact for `pyStrip`: stripping only removes characters. -/
theorem pyStrip_subset (s : Str) : pyStrip s ⊆ s := by
  intro x hx
  simp only [pyStrip, List.mem_reverse] at hx
  have h1 := (List.dropWhile_sublist (l := (s.dropWhile isWs).reverse) isWs).subset hx
  rw [List.mem_reverse] at h1
  exact (List.dropWhile_sublist isWs).subset h1

/-!
Retriever (`retrieve_docs`, chains.py lines 50-90).

The Chroma vector store and the embedding model are external collaborators;
they are modelled by `StoreEnv`: `dbExists` is `os.path.exists(db_path)` and
`search q k f` is `vectorstore.similarity_search(query=q, k=k, filter=
{"title": f})`, returning `.error` when the library call raises.  To make
"which queries were issued" observable, the embedding returns alongside the
content string the list of issued `Query` records, in order.
-/

/-- A document returned by `similarity_search`: `metadata.get('title')`
(absent modelled as `none`) and `page_content`. -/
structure Doc where
  title : Option Str
  page_content : Str
deriving DecidableEq, Repr

/-- Record of one `similarity_search` call: the query string, `k`, and the
title used in the exact-equality metadata filter. -/
structure Query where
  query : Str
  k : Nat
  filterTitle : Str
deriving DecidableEq, Repr

/-- The external vector store as seen by `retrieve_docs`. -/
structure StoreEnv where
  dbExists : Bool
  search : Str → Nat → Str → Except Str (List Doc)

/-- Warning returned when the store directory is absent (chains.py line 54). -/
def dbWarning : Str := chars "（警告：尚未建立 RAG 資料庫，請先執行 rag_builder.py）"

/-- One hit rendered as in chains.py line 83:
`f"\n\n--- 選文：{doc.metadata.get('title', '未知')} ---\n{doc.page_content}"`. -/
def docBlock (d : Doc) : Str :=
  chars "\n\n--- 選文：" ++ d.title.getD (chars "未知") ++ chars " ---\n" ++ d.page_content

/-- Placeholder for a label with zero hits (chains.py line 85). -/
def notFoundMsg (kw : Str) : Str :=
  chars "\n\n（未找到 " ++ kw ++ chars " 的原文）"

/-- Placeholder for a label whose query raised (chains.py line 88). -/
def searchErrMsg (kw : Str) : Str :=
  chars "\n\n（搜尋 " ++ kw ++ chars " 時發生錯誤）"

/-- Body of the `for item in selected_texts` loop (chains.py lines 66-88),
threading the accumulated content string and the log of issued queries. -/
def retrieve_step (env : StoreEnv) : Str × List Query → Str → Str × List Query :=
  fun acc item =>
    let kw := title_keyword item
    let content :=
      match env.search kw 2 kw with
      | .ok results =>
        if results = [] then acc.1 ++ notFoundMsg kw
        else results.foldl (fun a d => a ++ docBlock d) acc.1
      | .error _ => acc.1 ++ searchErrMsg kw
    (content, acc.2 ++ [⟨kw, 2, kw⟩])

/-- `retrieve_docs(selected_texts)` (chains.py lines 50-90): short-circuit
with a warning when the store directory is absent, otherwise run the loop
starting from the empty content string. -/
def retrieve_docs (env : StoreEnv) (selected_texts : List Str) : Str × List Query :=
  if env.dbExists then selected_texts.foldl (retrieve_step env) ([], [])
  else (dbWarning, [])

/-- The content contributed by one label, in closed form. -/
def labelSegment (env : StoreEnv) (item : Str) : Str :=
  let kw := title_keyword item
  match env.search kw 2 kw with
  | .ok results =>
    if results = [] then notFoundMsg kw
    else (results.map docBlock).flatten
  | .error _ => searchErrMsg kw

/-- The query issued for one label. -/
def labelQuery (item : Str) : Query :=
  ⟨title_keyword item, 2, title_keyword item⟩

theorem foldl_docBlock (results : List Doc) (acc : Str) :
    results.foldl (fun a d => a ++ docBlock d) acc = acc ++ (results.map docBlock).flatten := by
  induction results generalizing acc with
  | nil => simp
  | cons d ds ih => simp [List.foldl_cons, ih, List.append_assoc]

theorem retrieve_step_eq (env : StoreEnv) (acc : Str × List Query) (item : Str) :
    retrieve_step env acc item =
      (acc.1 ++ labelSegment env item, acc.2 ++ [labelQuery item]) := by
  unfold retrieve_step labelSegment labelQuery
  rcases h : env.search (title_keyword item) 2 (title_keyword item) with e | results
  · simp [h]
  · rcases hr : results with _ | ⟨d, ds⟩
    · simp [h, hr]
    · simp [h, hr, foldl_docBlock, List.flatten]

/-- Closed form of the retrieval loop: the content is the concatenation of
the per-label segments in input order, and the query log records one query
per label in input order. -/
theorem retrieve_foldl_eq (env : StoreEnv) (labels : List Str) (acc : Str × List Query) :
    labels.foldl (retrieve_step env) acc =
      (acc.1 ++ (labels.map (labelSegment env)).flatten,
       acc.2 ++ labels.map labelQuery) := by
  induction labels generalizing acc with
  | nil => simp
  | cons l ls ih =>
    rw [List.foldl_cons, retrieve_step_eq, ih]
    simp [List.append_assoc]

theorem retrieve_docs_eq (env : StoreEnv) (labels : List Str)
    (hdb : env.dbExists = true) :
    retrieve_docs env labels =
      ((labels.map (labelSegment env)).flatten, labels.map labelQuery) := by
  simp [retrieve_docs, hdb, retrieve_foldl_eq]

/-- C2 counterexample: the claim says the keyword is the entire remainder
after the first `" - "` separator, the label verbatim when no `" - "` occurs.
The label `"a-b"` contains no `" - "` separator, so the claim requires the
verbatim label `"a-b"`; the code splits on the bare `"-"` and yields `"b"`. -/
theorem title_keyword_claim_counterexample :
    title_keyword (chars "a-b") = chars "b" ∧
    title_keyword_specVersion (chars "a-b") = chars "a-b" ∧
    title_keyword (chars "a-b") ≠ title_keyword_specVersion (chars "a-b") := by
  refine ⟨by decide, by decide, by decide⟩

/-- C2 (amended): the Retriever tests for the character `'-'` anywhere in the
label; if absent the label is used verbatim, and otherwise it splits on every
`'-'` and uses the second resulting piece, whitespace-stripped — i.e. for a
label of the form `a ++ "-" ++ b` with hyphen-free `a`, the keyword is the
stripped portion of `b` before its next hyphen. -/
theorem title_keyword_amended :
    (∀ item : Str, item.contains '-' = false → title_keyword item = item) ∧
    (∀ a b : Str, '-' ∉ a →
      title_keyword (a ++ '-' :: b) =
        pyStrip (b.takeWhile (fun x => !(x = '-')))) := by
  constructor
  · intro item h
    rw [title_keyword, if_neg (by simpa using h : ¬ (item.contains '-' = true))]
  · intro a b ha
    rw [title_keyword, if_pos (contains_of_append_sep '-' a b),
      pySplit_append_sep '-' a b ha, List.getD_cons_succ, pySplit_head]

/-- C2 witness: on the label `"唐宋 - 赤壁賦"` the derived keyword is
`"赤壁賦"`. -/
theorem title_keyword_amended_witness :
    title_keyword (chars "唐宋 - 赤壁賦") = chars "赤壁賦" := by
  have heq : chars "唐宋 - 赤壁賦" = chars "唐宋 " ++ '-' :: chars " 赤壁賦" := by decide
  rw [heq, title_keyword_amended.2 (chars "唐宋 ") (chars " 赤壁賦") (by decide)]
  decide

/-- C3: when the store's on-disk location is absent, `retrieve_docs` returns
exactly the single warning string, short-circuiting the call: its query log
is empty, so no similarity query is issued. -/
theorem retrieve_docs_store_absent (env : StoreEnv) (labels : List Str)
    (h : env.dbExists = false) :
    retrieve_docs env labels = (dbWarning, []) := by
  simp [retrieve_docs, h]

/-- C3 witness: a concrete absent-store environment with a nonempty label
list yields the warning and an empty query log. -/
theorem retrieve_docs_store_absent_witness :
    retrieve_docs ⟨false, fun _ _ _ => .ok []⟩ [chars "唐宋 - 赤壁賦"] = (dbWarning, []) :=
  retrieve_docs_store_absent ⟨false, fun _ _ _ => .ok []⟩ [chars "唐宋 - 赤壁賦"] rfl

/-- C4: with the store present, `retrieve_docs` issues per label exactly one
query with `k = 2` and an exact-title filter equal to the query keyword, in
input order; the content is the concatenation of per-label segments in input
order, where a label with hits contributes one `docBlock` per hit in the
order hits are returned, and a label with zero hits contributes the
"not found" placeholder instead of failing the call. -/
theorem retrieve_docs_blocks_and_queries (env : StoreEnv) (labels : List Str)
    (hdb : env.dbExists = true) :
    (retrieve_docs env labels).1 = (labels.map (labelSegment env)).flatten ∧
    (retrieve_docs env labels).2 = labels.map labelQuery ∧
    (∀ q ∈ (retrieve_docs env labels).2, q.k = 2 ∧ q.filterTitle = q.query) ∧
    (∀ item results, env.search (title_keyword item) 2 (title_keyword item) = .ok results →
      results ≠ [] → labelSegment env item = (results.map docBlock).flatten) ∧
    (∀ item, env.search (title_keyword item) 2 (title_keyword item) = .ok [] →
      labelSegment env item = notFoundMsg (title_keyword item)) := by
  refine ⟨by rw [retrieve_docs_eq env labels hdb], by rw [retrieve_docs_eq env labels hdb],
    ?_, ?_, ?_⟩
  · intro q hq
    rw [retrieve_docs_eq env labels hdb] at hq
    simp only [List.mem_map] at hq
    obtain ⟨item, _, rfl⟩ := hq
    exact ⟨rfl, rfl⟩
  · intro item results hres hne
    simp [labelSegment, hres, hne]
  · intro item hres
    simp [labelSegment, hres]

/-- C4 witness: a store that returns one hit per query produces the titled
block, the `k = 2` exact-title query, and for an empty result the
placeholder. -/
theorem retrieve_docs_blocks_and_queries_witness :
    (retrieve_docs ⟨true, fun q _ _ => .ok [⟨some q, chars "水波不興"⟩]⟩ [chars "赤壁賦"]).2 =
      [⟨chars "赤壁賦", 2, chars "赤壁賦"⟩] := by
  rw [(retrieve_docs_blocks_and_queries ⟨true, fun q _ _ => .ok [⟨some q, chars "水波不興"⟩]⟩
    [chars "赤壁賦"] rfl).2.1]
  decide

/-- C5: a label whose similarity query raises is recorded inline as the error
placeholder, and retrieval continues: the segments contributed by the labels
before and after it are exactly the same per-label segments, unaffected by
the failure. -/
theorem retrieve_docs_error_isolated (env : StoreEnv) (pre post : List Str) (bad : Str)
    (e : Str) (hdb : env.dbExists = true)
    (herr : env.search (title_keyword bad) 2 (title_keyword bad) = .error e) :
    (retrieve_docs env (pre ++ bad :: post)).1 =
      (pre.map (labelSegment env)).flatten ++ searchErrMsg (title_keyword bad)
        ++ (post.map (labelSegment env)).flatten := by
  rw [retrieve_docs_eq env (pre ++ bad :: post) hdb]
  have hbad : labelSegment env bad = searchErrMsg (title_keyword bad) := by
    simp [labelSegment, herr]
  simp [hbad, List.append_assoc]

/-- C5 witness: with one failing middle label, retrieval still returns the
segments of the first and last labels with the error placeholder between. -/
theorem retrieve_docs_error_isolated_witness :
    (retrieve_docs
      ⟨true, fun q _ _ => if q = chars "bb" then .error (chars "boom") else .ok []⟩
      ([chars "aa"] ++ chars "bb" :: [chars "cc"])).1 =
      notFoundMsg (chars "aa") ++ searchErrMsg (chars "bb") ++ notFoundMsg (chars "cc") := by
  rw [retrieve_docs_error_isolated
    ⟨true, fun q _ _ => if q = chars "bb" then .error (chars "boom") else .ok []⟩
    [chars "aa"] [chars "cc"] (chars "bb") (chars "boom") rfl rfl]
  decide

/-- C8: with the store present and an empty label list, `retrieve_docs`
returns exactly the empty string with an empty query log: no query, no
placeholder, no warning. -/
theorem retrieve_docs_empty_labels (env : StoreEnv) (h : env.dbExists = true) :
    retrieve_docs env [] = ([], []) := by
  simp [retrieve_docs, h]

/-- C8 witness: a concrete present-store environment with no labels yields
the empty content and no queries. -/
theorem retrieve_docs_empty_labels_witness :
    retrieve_docs ⟨true, fun _ _ _ => .ok []⟩ [] = ([], []) :=
  retrieve_docs_empty_labels ⟨true, fun _ _ _ => .ok []⟩ rfl

/-!
Generator construction (`get_exam_generator_chain`, chains.py lines 93-115).

The process environment is modelled by `GenEnv` (each `os.getenv` result is
`none` when the variable is unset).  Constructing `ChatOpenAI` is modelled by
recording the arguments passed to it (`LLMInit`); raising `ValueError` is the
`Except.error` branch.
-/

/-- Environment variables read by `get_exam_generator_chain`. -/
structure GenEnv where
  OPENROUTER_API_KEY : Option Str
  OPENROUTER_BASE_URL : Option Str
  OPENROUTER_MODEL : Option Str
  OPENAI_API_KEY : Option Str

/-- Python truthiness test `not x` for an optional string: true when the
variable is unset or set to the empty string. -/
def falsy : Option Str → Bool
  | none => true
  | some s => s.isEmpty

/-- Message of the `ValueError` raised at chains.py line 107. -/
def apiKeyError : Str := chars "❌ 錯誤：找不到 API Key，請檢查 .env 檔案設定！"

/-- Arguments passed to the `ChatOpenAI` constructor (chains.py lines 110-115). -/
structure LLMInit where
  model : Str
  api_key : Str
  base_url : Option Str
  temperature : ℚ
deriving DecidableEq, Repr

/-- `get_exam_generator_chain` credential resolution and model construction
(chains.py lines 93-115): read the OpenRouter triple; if its key is falsy,
fall back to the OpenAI key and (re-checking the OpenRouter key) clear the
base URL; raise when still no key; otherwise construct the model with the
name override or `"gpt-4o"` and temperature `0.7`. -/
def get_exam_generator_chain (env : GenEnv) : Except Str LLMInit :=
  let api_key0 := env.OPENROUTER_API_KEY
  let base_url0 := env.OPENROUTER_BASE_URL
  let model_name := env.OPENROUTER_MODEL
  let resolved :=
    if falsy api_key0 then
      (env.OPENAI_API_KEY,
        if falsy env.OPENROUTER_API_KEY then (none : Option Str) else base_url0)
    else (api_key0, base_url0)
  if falsy resolved.1 then Except.error apiKeyError
  else Except.ok
    ⟨if falsy model_name then chars "gpt-4o" else model_name.getD [],
      resolved.1.getD [], resolved.2, 7/10⟩

/-- C6: construction prefers the OpenRouter key/base-URL/model triple; when
that key is absent (unset or empty) it falls back to the OpenAI key and
clears the base-URL override; and when neither key resolves it raises the
`ValueError` immediately instead of constructing a model. -/
theorem generator_credential_fallback (env : GenEnv) :
    (falsy env.OPENROUTER_API_KEY = false →
      ∃ cfg, get_exam_generator_chain env = .ok cfg ∧
        cfg.api_key = env.OPENROUTER_API_KEY.getD [] ∧
        cfg.base_url = env.OPENROUTER_BASE_URL ∧
        (falsy env.OPENROUTER_MODEL = false → cfg.model = env.OPENROUTER_MODEL.getD [])) ∧
    (falsy env.OPENROUTER_API_KEY = true → falsy env.OPENAI_API_KEY = false →
      ∃ cfg, get_exam_generator_chain env = .ok cfg ∧
        cfg.api_key = env.OPENAI_API_KEY.getD [] ∧
        cfg.base_url = none) ∧
    (falsy env.OPENROUTER_API_KEY = true → falsy env.OPENAI_API_KEY = true →
      get_exam_generator_chain env = .error apiKeyError) := by
  refine ⟨?_, ?_, ?_⟩
  · intro hor
    refine ⟨⟨if falsy env.OPENROUTER_MODEL = true then chars "gpt-4o"
        else env.OPENROUTER_MODEL.getD [],
      env.OPENROUTER_API_KEY.getD [], env.OPENROUTER_BASE_URL, 7/10⟩,
      ?_, rfl, rfl, fun hm => by simp [hm]⟩
    rw [get_exam_generator_chain]
    simp [hor]
  · intro hor hoa
    refine ⟨⟨if falsy env.OPENROUTER_MODEL = true then chars "gpt-4o"
        else env.OPENROUTER_MODEL.getD [],
      env.OPENAI_API_KEY.getD [], none, 7/10⟩, ?_, rfl, rfl⟩
    rw [get_exam_generator_chain]
    simp [hor, hoa]
  · intro hor hoa
    rw [get_exam_generator_chain]
    simp [hor, hoa]

/-- C6 witness: with no key set anywhere, construction raises the
`ValueError`. -/
theorem generator_credential_fallback_witness :
    get_exam_generator_chain ⟨none, none, none, none⟩ = .error apiKeyError :=
  (generator_credential_fallback ⟨none, none, none, none⟩).2.2 rfl rfl

/-- C10: whenever construction succeeds, the sampling temperature is `0.7`,
and when no model-name override is configured (unset or empty) the model
name is the fixed default `"gpt-4o"`, regardless of which provider's
credential was resolved. -/
theorem generator_default_model (env : GenEnv) (cfg : LLMInit)
    (h : get_exam_generator_chain env = .ok cfg) :
    (falsy env.OPENROUTER_MODEL = true → cfg.model = chars "gpt-4o") ∧
    cfg.temperature = 7/10 := by
  rw [get_exam_generator_chain] at h
  split at h <;> try split at h
  all_goals
    first
      | (rw [Except.ok.injEq] at h; subst h; exact ⟨fun hm => by simp_all, rfl⟩)
      | simp at h

/-- C10 witness: with only the OpenAI key set (so the fallback provider is
used) and no model override, the constructed model is `"gpt-4o"` at
temperature `0.7`. -/
theorem generator_default_model_witness :
    (⟨chars "gpt-4o", chars "sk-x", none, 7/10⟩ : LLMInit).model = chars "gpt-4o" ∧
    (⟨chars "gpt-4o", chars "sk-x", none, 7/10⟩ : LLMInit).temperature = 7/10 :=
  ⟨(generator_default_model ⟨none, none, none, some (chars "sk-x")⟩ _ rfl).1 rfl,
   (generator_default_model ⟨none, none, none, some (chars "sk-x")⟩ _ rfl).2⟩

/-!
Requirement-table serialization and the submit guard (main.py).

`parse_requirements_to_string(df)` (main.py lines 108-116) iterates
`df.index` (the question types) and `df.columns` (the difficulties); the
DataFrame cell lookup `df.at[q_type, diff]` is modelled as a count function.
The submit-button guard (main.py lines 119-123) is modelled as a decision
among its three branches.
-/

/-- Python substring test `pat in s`. -/
def containsSub (pat s : Str) : Bool :=
  (List.range (s.length + 1)).any (fun i => pat.isPrefixOf (s.drop i))

/-- The question-type rows of the count table (main.py line 37). -/
def question_types : List Str :=
  [chars "單選題", chars "多選題", chars "題組(閱讀)", chars "混合題",
   chars "素養題", chars "作文/問答"]

/-- The difficulty columns of the count table (main.py line 38). -/
def difficulties : List Str := [chars "簡單", chars "中等", chars "困難"]

/-- The unit chosen at main.py line 114: `"組" if "題組" in q_type else "題"`. -/
def req_unit (q_type : Str) : Str :=
  if containsSub (chars "題組") q_type then chars "組" else chars "題"

/-- The clause appended at main.py line 115:
`f"「{diff}」的「{q_type}」：{count} {unit}"`. -/
def req_clause (q_type diff : Str) (count : Nat) : Str :=
  chars "「" ++ diff ++ chars "」的「" ++ q_type ++ chars "」：" ++
    (Nat.repr count).data ++ chars " " ++ req_unit q_type

/-- The `req_list` built by the nested loop of main.py lines 109-115,
mirrored as nested folds appending in iteration order. -/
def req_list (index columns : List Str) (at_ : Str → Str → Nat) : List Str :=
  index.foldl (fun acc q_type =>
    columns.foldl (fun acc2 diff =>
      if 0 < at_ q_type diff then acc2 ++ [req_clause q_type diff (at_ q_type diff)]
      else acc2) acc) []

/-- Python `sep.join(parts)`. -/
def pyJoin (sep : Str) : List Str → Str
  | [] => []
  | [x] => x
  | x :: y :: t => x ++ sep ++ pyJoin sep (y :: t)

/-- `parse_requirements_to_string(df)` (main.py lines 108-116). -/
def parse_requirements_to_string (index columns : List Str) (at_ : Str → Str → Nat) : Str :=
  pyJoin (chars "；") (req_list index columns at_)

/-- `edited_df.values.sum()` (main.py line 57). -/
def total_questions (index columns : List Str) (at_ : Str → Str → Nat) : Nat :=
  (index.map (fun q => (columns.map (at_ q)).sum)).sum

/-- The three branches of the submit-button handler (main.py lines 119-124). -/
inductive SubmitAction where
  | warnNoTexts
  | warnNoCounts
  | runPipeline
deriving DecidableEq, Repr

/-- The submit-button guard (main.py lines 119-123): warn when no text is
selected; otherwise warn when the table sums to zero and the free-text
instruction strips to empty; otherwise invoke the generation pipeline. -/
def submit_action (selected_texts : List Str) (total : Nat)
    (custom_requirements : Str) : SubmitAction :=
  if selected_texts = [] then .warnNoTexts
  else if total = 0 ∧ pyStrip custom_requirements = [] then .warnNoCounts
  else .runPipeline

theorem req_list_inner (columns : List Str) (q_type : Str) (at_ : Str → Str → Nat)
    (acc : List Str) :
    columns.foldl (fun acc2 diff =>
      if 0 < at_ q_type diff then acc2 ++ [req_clause q_type diff (at_ q_type diff)]
      else acc2) acc =
    acc ++ (columns.filter (fun d => 0 < at_ q_type d)).map
      (fun d => req_clause q_type d (at_ q_type d)) := by
  induction columns generalizing acc with
  | nil => simp
  | cons d ds ih =>
    by_cases hd : 0 < at_ q_type d
    · simp [List.foldl_cons, List.filter_cons, hd, ih, List.append_assoc]
    · simp [List.foldl_cons, List.filter_cons, hd, ih]

theorem req_list_eq (index columns : List Str) (at_ : Str → Str → Nat) :
    req_list index columns at_ =
      index.flatMap (fun q_type =>
        (columns.filter (fun d => 0 < at_ q_type d)).map
          (fun d => req_clause q_type d (at_ q_type d))) := by
  suffices h : ∀ acc : List Str,
      index.foldl (fun acc q_type =>
        columns.foldl (fun acc2 diff =>
          if 0 < at_ q_type diff then acc2 ++ [req_clause q_type diff (at_ q_type diff)]
          else acc2) acc) acc =
      acc ++ index.flatMap (fun q_type =>
        (columns.filter (fun d => 0 < at_ q_type d)).map
          (fun d => req_clause q_type d (at_ q_type d))) by
    simpa [req_list] using h []
  induction index with
  | nil => simp
  | cons q qs ih =>
    intro acc
    rw [List.foldl_cons, ih, req_list_inner]
    simp [List.flatMap_cons, List.append_assoc]

/-- C7: the requirement summary is the full-width-semicolon join of exactly
one clause per {question-type × difficulty} cell with a nonzero count, taken
in table iteration order, with no clause for zero cells; the table sum is
zero exactly when every cell is zero; and the submit guard invokes the
pipeline exactly when some text is selected and the submission is not
(all-zero table with whitespace-only free text) — the all-zero check before
invocation being the only rejection involving the counts. -/
theorem requirements_summary_and_guard (index columns : List Str)
    (at_ : Str → Str → Nat) (sel : List Str) (custom : Str) :
    parse_requirements_to_string index columns at_ =
      pyJoin (chars "；") (index.flatMap (fun q_type =>
        (columns.filter (fun d => 0 < at_ q_type d)).map
          (fun d => req_clause q_type d (at_ q_type d)))) ∧
    (total_questions index columns at_ = 0 ↔
      ∀ q ∈ index, ∀ d ∈ columns, at_ q d = 0) ∧
    (submit_action sel (total_questions index columns at_) custom = .runPipeline ↔
      sel ≠ [] ∧ (total_questions index columns at_ ≠ 0 ∨ pyStrip custom ≠ [])) := by
  refine ⟨by rw [parse_requirements_to_string, req_list_eq], ?_, ?_⟩
  · constructor
    · intro h q hq d hd
      have h1 : (columns.map (at_ q)).sum = 0 := by
        have := (List.sum_eq_zero_iff).mp h
        exact this _ (List.mem_map_of_mem _ hq)
      exact (List.sum_eq_zero_iff).mp h1 _ (List.mem_map_of_mem _ hd)
    · intro h
      refine List.sum_eq_zero_iff.mpr ?_
      intro x hx
      obtain ⟨q, hq, rfl⟩ := List.mem_map.mp hx
      refine List.sum_eq_zero_iff.mpr ?_
      intro y hy
      obtain ⟨d, hd, rfl⟩ := List.mem_map.mp hy
      exact h q hq d hd
  · unfold submit_action
    by_cases hsel : sel = []
    · simp [hsel]
    · by_cases hz : total_questions index columns at_ = 0 ∧ pyStrip custom = []
      · simp [hsel, hz]
        try tauto
      · simp [hsel, hz]
        try tauto

/-- C7 witness: on the fixed question-type/difficulty table of main.py with
the default counts (two easy and two medium single-choice questions), the
summary is the two clauses joined by the full-width semicolon. -/
theorem requirements_summary_and_guard_witness :
    parse_requirements_to_string question_types difficulties
      (fun q d => if q = chars "單選題" ∧ (d = chars "簡單" ∨ d = chars "中等") then 2 else 0) =
      chars "「簡單」的「單選題」：2 題；「中等」的「單選題」：2 題" := by
  rw [(requirements_summary_and_guard question_types difficulties
    (fun q d => if q = chars "單選題" ∧ (d = chars "簡單" ∨ d = chars "中等") then 2 else 0)
    [] []).1]
  decide

/-!
Index builder (`build_database`, rag_builder.py lines 12-80).

The filesystem and the external libraries are modelled by `BuildWorld`:
`baseExists` is `os.path.exists(base_path)`; `loadedDocs` is the list of
documents the `os.walk`/`TextLoader` scan loads successfully (per-file read
failures are only printed, so only the surviving documents matter);
`splitter` is the external `RecursiveCharacterTextSplitter`; `db` is the
persisted index contents at `db_path` (`none` when absent); and `rmtreeOk`
tells whether `shutil.rmtree` succeeds or raises.
-/

/-- State of the world as `build_database` sees it. -/
structure BuildWorld where
  baseExists : Bool
  loadedDocs : List Str
  splitter : List Str → List Str
  db : Option (List Str)
  rmtreeOk : Bool

/-- The four ways `build_database` can finish. -/
inductive BuildOutcome where
  | noSourceDir
  | noDocuments
  | deleteFailed
  | built
deriving DecidableEq, Repr

/-- `build_database()` (rag_builder.py lines 12-80): return early when the
source directory is missing (line 18-20) or no document loaded (line 47-49);
split the documents (line 58); delete an existing index, returning early if
the deletion raises (lines 61-67); then persist the new index (lines 75-79). -/
def build_database (w : BuildWorld) : BuildOutcome × BuildWorld :=
  if w.baseExists = false then (.noSourceDir, w)
  else if w.loadedDocs = [] then (.noDocuments, w)
  else
    let splits := w.splitter w.loadedDocs
    if w.db.isSome && !w.rmtreeOk then (.deleteFailed, w)
    else (.built, { w with db := some splits })

/-- C9: the builder leaves the previously built index untouched when the
source directory is missing, when no document loads, or when deleting the
old index fails — in each case returning early with the whole world
unchanged — and the on-disk index changes only when the source directory was
found and at least one document was loaded (and hence split). -/
theorem build_database_guards (w : BuildWorld) :
    (w.baseExists = false → build_database w = (.noSourceDir, w)) ∧
    (w.baseExists = true → w.loadedDocs = [] → build_database w = (.noDocuments, w)) ∧
    (w.baseExists = true → w.loadedDocs ≠ [] → w.db.isSome = true → w.rmtreeOk = false →
      build_database w = (.deleteFailed, w)) ∧
    ((build_database w).2.db ≠ w.db → w.baseExists = true ∧ w.loadedDocs ≠ []) := by
  refine ⟨?_, ?_, ?_, ?_⟩
  · intro h
    simp [build_database, h]
  · intro hb hd
    simp [build_database, hb, hd]
  · intro hb hd hdb hrm
    simp [build_database, hb, hd, hdb, hrm]
  · intro hchanged
    by_cases hb : w.baseExists = true
    · by_cases hd : w.loadedDocs = []
      · exact absurd (by simp [build_database, hb, hd]) hchanged
      · exact ⟨hb, hd⟩
    · have hb' : w.baseExists = false := by
        cases h : w.baseExists
        · rfl
        · exact absurd h hb
      exact absurd (by simp [build_database, hb']) hchanged

/-- C9 witness: with the source present, one loaded document and a failing
delete over an existing index, the builder returns early with the old index
intact. -/
theorem build_database_guards_witness :
    build_database ⟨true, [chars "出師表"], id, some [chars "舊"], false⟩ =
      (.deleteFailed, ⟨true, [chars "出師表"], id, some [chars "舊"], false⟩) :=
  (build_database_guards ⟨true, [chars "出師表"], id, some [chars "舊"], false⟩).2.2.1
    rfl (by simp) rfl rfl

/-!
Response Normalizer.

The spec (§4.4) documents a normalizer `normalize(raw_text) -> ParsedExamPaper`
that strips code fences, slices the outermost brace span, parses it as JSON
and degrades to the sentinel `{main_scope_text: "解析錯誤", question_blocks: []}`
on any failure.  Its implementation is not under `src/` — `src` only
constructs a JSON output parser and invokes the chain — so the definitions
below are modelled from the spec's §4.4 algorithm, step by step.  Totality of
`normalize` as a Lean function is the "never raises" half of the contract.
-/

/-- Modelled from the spec: the structured JSON values produced by step 4 of
the normalizer algorithm, whose implementation is missing from `src/`. -/
inductive JVal where
  | jnull
  | jbool (b : Bool)
  | jnum (lexeme : Str)
  | jstr (s : Str)
  | jarr (elems : List JVal)
  | jobj (fields : List (Str × JVal))

/-- JSON insignificant whitespace. -/
def jsonWs (c : Char) : Bool := c = ' ' || c = '\t' || c = '\n' || c = '\r'

/-- Drop leading JSON whitespace. -/
def skipWs (s : Str) : Str := s.dropWhile jsonWs

/-- Value of a hexadecimal digit. -/
def hexVal (c : Char) : Option Nat :=
  if '0' ≤ c ∧ c ≤ '9' then some (c.toNat - '0'.toNat)
  else if 'a' ≤ c ∧ c ≤ 'f' then some (c.toNat - 'a'.toNat + 10)
  else if 'A' ≤ c ∧ c ≤ 'F' then some (c.toNat - 'A'.toNat + 10)
  else none

/-- Single-character JSON string escapes. -/
def escChar (e : Char) : Option Char :=
  if e = '"' then some '"'
  else if e = '\\' then some '\\'
  else if e = '/' then some '/'
  else if e = 'b' then some (Char.ofNat 8)
  else if e = 'f' then some (Char.ofNat 12)
  else if e = 'n' then some '\n'
  else if e = 'r' then some '\r'
  else if e = 't' then some '\t'
  else none

/-- Modelled from the spec: JSON string-literal body (after the opening
quote), fuelled for termination.  Unescaped control characters are rejected,
as JSON requires. -/
def parseStringBody : Nat → Str → Option (Str × Str)
  | 0, _ => none
  | fuel + 1, s =>
    match s with
    | [] => none
    | c :: rest =>
      if c = '"' then some ([], rest)
      else if c = '\\' then
        match rest with
        | [] => none
        | e :: rest2 =>
          if e = 'u' then
            match rest2 with
            | h1 :: h2 :: h3 :: h4 :: rest3 =>
              match hexVal h1, hexVal h2, hexVal h3, hexVal h4 with
              | some a, some b, some c2, some d =>
                match parseStringBody fuel rest3 with
                | some (tail, rem) =>
                  some (Char.ofNat (((a * 16 + b) * 16 + c2) * 16 + d) :: tail, rem)
                | none => none
              | _, _, _, _ => none
            | _ => none
          else
            match escChar e with
            | some ec =>
              match parseStringBody fuel rest2 with
              | some (tail, rem) => some (ec :: tail, rem)
              | none => none
            | none => none
      else if c.toNat < 32 then none
      else
        match parseStringBody fuel rest with
        | some (tail, rem) => some (c :: tail, rem)
        | none => none

/-- Exponent part of a JSON number; returns the full lexeme and the rest. -/
def parseExpPart (lex : Str) (s : Str) : Option (Str × Str) :=
  match s with
  | [] => some (lex, s)
  | e :: t =>
    if e = 'e' ∨ e = 'E' then
      let signed : Str × Str :=
        match t with
        | c :: t2 => if c = '+' ∨ c = '-' then ([c], t2) else ([], t)
        | [] => ([], t)
      let ed := signed.2.takeWhile Char.isDigit
      if ed = [] then none
      else some (lex ++ e :: signed.1 ++ ed, signed.2.dropWhile Char.isDigit)
    else some (lex, s)

/-- Modelled from the spec: a JSON number, kept as its lexeme. -/
def parseNumber (s : Str) : Option (Str × Str) :=
  let signed : Str × Str :=
    match s with
    | '-' :: t => (['-'], t)
    | _ => ([], s)
  let intd := signed.2.takeWhile Char.isDigit
  let s2 := signed.2.dropWhile Char.isDigit
  if intd = [] then none
  else
    match s2 with
    | '.' :: t =>
      let fd := t.takeWhile Char.isDigit
      if fd = [] then none
      else parseExpPart (signed.1 ++ intd ++ '.' :: fd) (t.dropWhile Char.isDigit)
    | _ => parseExpPart (signed.1 ++ intd) s2

mutual

/-- Modelled from the spec: recursive-descent JSON value parser (step 4 of
the normalizer algorithm), fuelled for termination. -/
def parseVal : Nat → Str → Option (JVal × Str)
  | 0, _ => none
  | fuel + 1, s =>
    match skipWs s with
    | [] => none
    | c :: rest =>
      if c = '{' then
        match skipWs rest with
        | '}' :: rem => some (.jobj [], rem)
        | _ =>
          match parseMembers fuel rest with
          | some (fs, rem) => some (.jobj fs, rem)
          | none => none
      else if c = '[' then
        match skipWs rest with
        | ']' :: rem => some (.jarr [], rem)
        | _ =>
          match parseElems fuel rest with
          | some (es, rem) => some (.jarr es, rem)
          | none => none
      else if c = '"' then
        match parseStringBody (rest.length + 1) rest with
        | some (str, rem) => some (.jstr str, rem)
        | none => none
      else if (chars "true").isPrefixOf (c :: rest) then some (.jbool true, rest.drop 3)
      else if (chars "false").isPrefixOf (c :: rest) then some (.jbool false, rest.drop 4)
      else if (chars "null").isPrefixOf (c :: rest) then some (.jnull, rest.drop 3)
      else
        match parseNumber (c :: rest) with
        | some (lex, rem) => some (.jnum lex, rem)
        | none => none

/-- Members of a JSON object after the opening brace (at least one). -/
def parseMembers : Nat → Str → Option (List (Str × JVal) × Str)
  | 0, _ => none
  | fuel + 1, s =>
    match skipWs s with
    | '"' :: rest =>
      match parseStringBody (rest.length + 1) rest with
      | some (key, rem) =>
        match skipWs rem with
        | ':' :: rem2 =>
          match parseVal fuel rem2 with
          | some (v, rem3) =>
            match skipWs rem3 with
            | ',' :: rem4 =>
              match parseMembers fuel rem4 with
              | some (fs, rem5) => some ((key, v) :: fs, rem5)
              | none => none
            | '}' :: rem4 => some ([(key, v)], rem4)
            | _ => none
          | none => none
        | _ => none
      | none => none
    | _ => none

/-- Elements of a JSON array after the opening bracket (at least one). -/
def parseElems : Nat → Str → Option (List JVal × Str)
  | 0, _ => none
  | fuel + 1, s =>
    match parseVal fuel s with
    | some (v, rem) =>
      match skipWs rem with
      | ',' :: rem2 =>
        match parseElems fuel rem2 with
        | some (es, rem3) => some (v :: es, rem3)
        | none => none
      | ']' :: rem2 => some ([v], rem2)
      | _ => none
    | none => none

end

/-- Modelled from the spec: parse a whole string as one JSON value with only
trailing whitespace, as step 4 requires of the brace slice. -/
def parse_json (s : Str) : Option JVal :=
  match parseVal (s.length + 1) s with
  | some (v, rem) => if skipWs rem = [] then some v else none
  | none => none

/-- Index of the first occurrence of `pat` in `s`. -/
def findSubIdx (pat s : Str) : Option Nat :=
  (List.range (s.length + 1)).find? (fun i => pat.isPrefixOf (s.drop i))

/-- Modelled from the spec: step 2 of the normalizer — if a fenced code block
marked as JSON is present take only its interior, else the interior of any
fenced code block, else the full text. -/
def fenceInterior (t : Str) : Str :=
  match findSubIdx (chars "```json") t with
  | some i =>
    let rest := t.drop (i + 7)
    match findSubIdx (chars "```") rest with
    | some j => rest.take j
    | none => rest
  | none =>
    match findSubIdx (chars "```") t with
    | some i =>
      let rest := t.drop (i + 3)
      match findSubIdx (chars "```") rest with
      | some j => rest.take j
      | none => rest
    | none => t

/-- Modelled from the spec: step 3 of the normalizer — locate the first `{`
and the last `}`; if both are found slice that inclusive span, else fail. -/
def braceSlice (s : Str) : Option Str :=
  if '{' ∈ s ∧ '}' ∈ s then
    let i := s.findIdx (fun c => c = '{')
    let j := s.length - 1 - s.reverse.findIdx (fun c => c = '}')
    some ((s.drop i).take (j + 1 - i))
  else none

/-- Modelled from the spec: the normalized result shape
`{main_scope_text, question_blocks}`. -/
structure ParsedExamPaper where
  main_scope_text : Str
  question_blocks : List JVal

/-- Modelled from the spec: the sentinel
`{main_scope_text: "解析錯誤", question_blocks: []}` returned on any failure. -/
def sentinelPaper : ParsedExamPaper := ⟨chars "解析錯誤", []⟩

/-- First field of a JSON object with the given key. -/
def lookupField (fs : List (Str × JVal)) (k : Str) : Option JVal :=
  (fs.find? (fun p => p.1 == k)).map (fun p => p.2)

/-- Modelled from the spec: read the parsed object into the
question/answer structure, failing on a non-object (wrong shape). -/
def paperOfJson : JVal → Option ParsedExamPaper
  | .jobj fs =>
    let mst : Str :=
      match lookupField fs (chars "main_scope_text") with
      | some (.jstr s) => s
      | _ => []
    let qbs : List JVal :=
      match lookupField fs (chars "question_blocks") with
      | some (.jarr es) => es
      | _ => []
    some ⟨mst, qbs⟩
  | _ => none

/-- Modelled from the spec: steps 1-4 chained — trim, take the fence
interior, slice the brace span, parse, then shape. -/
def normalizeSteps (t : Str) : Option ParsedExamPaper :=
  match braceSlice (fenceInterior (pyStrip t)) with
  | some s =>
    match parse_json s with
    | some j => paperOfJson j
    | none => none
  | none => none

/-- Modelled from the spec: `normalize(raw_text)` — the best-effort pipeline
of steps 1-4, degrading to the sentinel on any failure (step 5); a total
function, so no exception can reach the caller. -/
def normalize (t : Str) : ParsedExamPaper :=
  match normalizeSteps t with
  | some p => p
  | none => sentinelPaper

/-- The fence interior is made of characters of the original text. -/
theorem fenceInterior_subset (t : Str) : fenceInterior t ⊆ t := by
  rcases h1 : findSubIdx (chars "```json") t with _ | i
  · rcases h2 : findSubIdx (chars "```") t with _ | i
    · simp only [fenceInterior, h1, h2]
      exact fun x hx => hx
    · rcases h3 : findSubIdx (chars "```") (t.drop (i + 3)) with _ | j
      · simp only [fenceInterior, h1, h2, h3]
        exact List.drop_subset _ t
      · simp only [fenceInterior, h1, h2, h3]
        exact (List.take_subset _ _).trans (List.drop_subset _ t)
  · rcases h2 : findSubIdx (chars "```") (t.drop (i + 7)) with _ | j
    · simp only [fenceInterior, h1, h2]
      exact List.drop_subset _ t
    · simp only [fenceInterior, h1, h2]
      exact (List.take_subset _ _).trans (List.drop_subset _ t)

theorem braceSlice_none_of_no_brace (s : Str) (h : '{' ∉ s ∨ '}' ∉ s) :
    braceSlice s = none := by
  rcases h with h | h <;> simp [braceSlice, h]

/-- C1: on any raw model output in which an opening or closing brace is
absent (in particular unbalanced brace spans missing one side), or whose
extracted candidate fails to parse into the expected shape, `normalize`
returns exactly the sentinel `{main_scope_text: "解析錯誤",
question_blocks: []}`; being a total function, it never raises. -/
theorem normalize_unparsable_sentinel (t : Str)
    (h : '{' ∉ t ∨ '}' ∉ t ∨ normalizeSteps t = none) :
    normalize t = sentinelPaper := by
  have hnone : normalizeSteps t = none := by
    rcases h with h | h | h
    · have h2 : '{' ∉ fenceInterior (pyStrip t) :=
        fun hc => h (pyStrip_subset t (fenceInterior_subset _ hc))
      rw [normalizeSteps, braceSlice_none_of_no_brace _ (Or.inl h2)]
    · have h2 : '}' ∉ fenceInterior (pyStrip t) :=
        fun hc => h (pyStrip_subset t (fenceInterior_subset _ hc))
      rw [normalizeSteps, braceSlice_none_of_no_brace _ (Or.inr h2)]
    · exact h
  rw [normalize, hnone]

/-- C1 witness: a plain refusal message with no braces normalizes to the
sentinel. -/
theorem normalize_unparsable_sentinel_witness :
    normalize (chars "抱歉，我無法生成題目。") = sentinelPaper :=
  normalize_unparsable_sentinel (chars "抱歉，我無法生成題目。") (Or.inl (by decide))

end TutorsAssistant
